import Mathlib

/-!
Verification of the multi-language code-execution engine
(`assessment_backend/code_executor.py`) of the Candidate-Assessment
platform.  The Python module is shallowly embedded: each Python function
becomes a Lean function, Python exceptions become `Except PyExn`,
subprocess interactions are abstracted by a `World` oracle supplying the
outcome of each external step, and the `with tempfile.TemporaryDirectory()`
scope is modelled by an explicit workspace-event trace.
-/

/-- Model of a Python exception value, carrying enough to compute `str(e)`. -/
inductive PyExn where
  | keyError (key : String)
  | valueError (msg : String)
  | osError (msg : String)
deriving Repr, DecidableEq

/-- Python `str(e)`: `str(KeyError(k))` is the repr of the key (quoted);
`str(ValueError(m))` and `str(OSError(m))` are the message. -/
def pyStr : PyExn → String
  | PyExn.keyError k => "\x27" ++ k ++ "\x27"
  | PyExn.valueError m => m
  | PyExn.osError m => m

/-- The `ExecutionResult` class of `code_executor.py` (constructor defaults:
`stdout=""`, `stderr=""`, `exit_code=0`, `execution_time_ms=0`,
`memory_usage_mb=None`, `status="Accepted"`, `timeout=False`). -/
structure ExecutionResult where
  stdout : String
  stderr : String
  exit_code : Int
  execution_time_ms : Nat
  memory_usage_mb : Option Nat
  status : String
  timeout : Bool
deriving Repr, DecidableEq

/-- One entry of the `self.languages` registry dict. -/
structure LangConfig where
  name : String
  extension : String
  compile_command : Option (List String)
  run_command : List String
  timeout : Nat
  version_cmd : List String
deriving Repr, DecidableEq

/-- `self.languages["python"]`. -/
def pythonConfig : LangConfig :=
  ⟨"Python", ".py", none, ["python3"], 30, ["python3", "--version"]⟩

/-- `self.languages["java"]`. -/
def javaConfig : LangConfig :=
  ⟨"Java", ".java", some ["javac"], ["java"], 30, ["java", "--version"]⟩

/-- `self.languages["cpp"]`. -/
def cppConfig : LangConfig :=
  ⟨"C++", ".cpp", some ["g++", "-o", "solution"], ["./solution"], 30,
   ["g++", "--version"]⟩

/-- `self.languages["javascript"]`. -/
def javascriptConfig : LangConfig :=
  ⟨"JavaScript", ".js", none, ["node"], 30, ["node", "--version"]⟩

/-- Dict lookup `self.languages[language]`: the registry has exactly the four
keys "python", "java", "cpp", "javascript". -/
def lookupLanguage (language : String) : Option LangConfig :=
  if language = "python" then some pythonConfig
  else if language = "java" then some javaConfig
  else if language = "cpp" then some cppConfig
  else if language = "javascript" then some javascriptConfig
  else none

/-- Integer-valued items of a config dict.  The only int-valued key present in
every registry entry is `"timeout"`; subscripting the dict with any other
integer key (in particular `"default_timeout"`, line 102) raises `KeyError`. -/
def configGetNat (c : LangConfig) (key : String) : Option Nat :=
  if key = "timeout" then some c.timeout else none

deriving instance DecidableEq for Except

/-- Outcome of a completed `process.communicate()`: captured raw byte streams
and the process's exit status. -/
structure ProcResult where
  stdout : List Nat
  stderr : List Nat
  returncode : Int
deriving Repr, DecidableEq

/-- Outcome of `asyncio.wait_for(process.communicate(...), timeout=...)`:
either the process finished in time, or `asyncio.TimeoutError` was raised and
the process was killed (`killedRc` is `process.returncode` observed after
`kill()` + `wait()`). -/
inductive CommOutcome where
  | finished (pr : ProcResult)
  | timedOut (killedRc : Int)
deriving Repr, DecidableEq

/-- Oracle for the environment-dependent steps of one invocation: whether the
temporary directory could be created, whether writing the source file
succeeded, whether each `create_subprocess_exec` spawn succeeded, the
compiler's `communicate()` outcome, the run-phase race outcome, and the
measured elapsed wall-clock milliseconds. -/
structure World where
  tempdir : Except PyExn Unit
  writeSource : Except PyExn Unit
  compileSpawn : Except PyExn Unit
  compileComm : ProcResult
  runSpawn : Except PyExn Unit
  runComm : CommOutcome
  elapsedMs : Nat

/-- Workspace lifecycle events, used to state the no-leak invariant. -/
inductive WsEvent where
  | created
  | destroyed
deriving Repr, DecidableEq

/-- Second byte allowed after lead byte `b1` (UTF-8 shortest-form and scalar
range restrictions, as enforced by CPython's UTF-8 decoder). -/
def validSecond (b1 b2 : Nat) : Bool :=
  if b1 = 0xE0 then 0xA0 ≤ b2 && b2 ≤ 0xBF
  else if b1 = 0xED then 0x80 ≤ b2 && b2 ≤ 0x9F
  else if b1 = 0xF0 then 0x90 ≤ b2 && b2 ≤ 0xBF
  else if b1 = 0xF4 then 0x80 ≤ b2 && b2 ≤ 0x8F
  else 0x80 ≤ b2 && b2 ≤ 0xBF

/-- A UTF-8 continuation byte. -/
def isCont (b : Nat) : Bool := 0x80 ≤ b && b ≤ 0xBF

/-- UTF-8 decoding of a byte list with an error-handler output `err`:
each maximal invalid subpart contributes `err` to the output (CPython emits
one handler call per maximal subpart).  `err = []` models
`decode('utf-8', errors='ignore')`; `err = [U+FFFD]` models
`errors='replace'`.  The `fuel` argument only drives structural recursion:
every step consumes at least one byte, so `fuel = bs.length` (as supplied by
`utf8DecodeWith`) never runs out. -/
def utf8DecodeGo (err : List Char) : Nat → List Nat → List Char
  | 0, _ => []
  | _ + 1, [] => []
  | fuel + 1, b1 :: t1 =>
    if b1 < 0x80 then Char.ofNat b1 :: utf8DecodeGo err fuel t1
    else if 0xC2 ≤ b1 && b1 ≤ 0xDF then
      match t1 with
      | [] => err
      | b2 :: t2 =>
        if isCont b2 then
          Char.ofNat ((b1 - 0xC0) * 64 + (b2 - 0x80)) :: utf8DecodeGo err fuel t2
        else err ++ utf8DecodeGo err fuel (b2 :: t2)
    else if 0xE0 ≤ b1 && b1 ≤ 0xEF then
      match t1 with
      | [] => err
      | b2 :: t2 =>
        if validSecond b1 b2 then
          match t2 with
          | [] => err
          | b3 :: t3 =>
            if isCont b3 then
              Char.ofNat ((b1 - 0xE0) * 4096 + (b2 - 0x80) * 64 + (b3 - 0x80)) ::
                utf8DecodeGo err fuel t3
            else err ++ utf8DecodeGo err fuel (b3 :: t3)
        else err ++ utf8DecodeGo err fuel (b2 :: t2)
    else if 0xF0 ≤ b1 && b1 ≤ 0xF4 then
      match t1 with
      | [] => err
      | b2 :: t2 =>
        if validSecond b1 b2 then
          match t2 with
          | [] => err
          | b3 :: t3 =>
            if isCont b3 then
              match t3 with
              | [] => err
              | b4 :: t4 =>
                if isCont b4 then
                  Char.ofNat ((b1 - 0xF0) * 262144 + (b2 - 0x80) * 4096 +
                      (b3 - 0x80) * 64 + (b4 - 0x80)) :: utf8DecodeGo err fuel t4
                else err ++ utf8DecodeGo err fuel (b4 :: t4)
            else err ++ utf8DecodeGo err fuel (b3 :: t3)
        else err ++ utf8DecodeGo err fuel (b2 :: t2)
    else err ++ utf8DecodeGo err fuel t1

/-- UTF-8 decoding of a whole byte list (see `utf8DecodeGo`). -/
def utf8DecodeWith (err : List Char) (bs : List Nat) : List Char :=
  utf8DecodeGo err bs.length bs

/-- `bytes.decode('utf-8', errors='ignore')` as used throughout the module:
invalid byte sequences are dropped. -/
def utf8DecodeIgnoreStr (bs : List Nat) : String :=
  String.mk (utf8DecodeWith [] bs)

/-- Modelled from the spec: the spec's words say stdout/stderr are "decoded
permissively (invalid byte sequences are replaced, never fatal)", i.e.
`errors='replace'` semantics emitting U+FFFD; defined for comparison with
the source's `errors='ignore'` decoding. -/
def utf8DecodeReplaceStr (bs : List Nat) : String :=
  String.mk (utf8DecodeWith [Char.ofNat 0xFFFD] bs)

/-- Python whitespace test for `str.strip()` (ASCII whitespace subset:
space, tab, newline, carriage return, vertical tab, form feed). -/
def pyIsSpace (c : Char) : Bool :=
  c = ' ' || c = '\t' || c = '\n' || c = '\r' ||
    c = Char.ofNat 11 || c = Char.ofNat 12

/-- Python `str.strip()`: remove leading and trailing whitespace. -/
def pyStrip (s : String) : String :=
  String.mk (((s.toList.dropWhile pyIsSpace).reverse.dropWhile pyIsSpace).reverse)

/-- The bytes of an ASCII string literal (models the `b"..."` literals
`b""` and `b"Time Limit Exceeded"`). -/
def strBytes (s : String) : List Nat := s.toList.map Char.toNat

/-- Python `process.returncode or 0` (a falsy return code maps to 0). -/
def pyOrZero (rc : Int) : Int := if rc = 0 then 0 else rc

/-- Status derivation shared by all run phases:
`status = "Accepted"; if timeout_occurred: status = "Time Limit Exceeded";
elif process.returncode != 0: status = "Runtime Error"`. -/
def deriveStatus (timedOut : Bool) (rc : Int) : String :=
  if timedOut then "Time Limit Exceeded"
  else if rc ≠ 0 then "Runtime Error"
  else "Accepted"

/-- The `ExecutionResult` built after the run-phase race (lines 160-187 and
their copies): on completion the captured streams are decoded with
`errors='ignore'` and stripped; on timeout the partial output was discarded
(`stdout, stderr = b"", b"Time Limit Exceeded"`) and the same decode/strip
and status derivation apply to those literals. -/
def runResult (w : World) : ExecutionResult :=
  match w.runComm with
  | CommOutcome.finished pr =>
    ⟨pyStrip (utf8DecodeIgnoreStr pr.stdout),
     pyStrip (utf8DecodeIgnoreStr pr.stderr),
     pyOrZero pr.returncode, w.elapsedMs, none,
     deriveStatus false pr.returncode, false⟩
  | CommOutcome.timedOut killedRc =>
    ⟨pyStrip (utf8DecodeIgnoreStr (strBytes "")),
     pyStrip (utf8DecodeIgnoreStr (strBytes "Time Limit Exceeded")),
     pyOrZero killedRc, w.elapsedMs, none,
     deriveStatus true killedRc, true⟩

/-- The run phase shared verbatim by `_run_python`, `_run_java`,
`_run_compiled` and `_run_javascript`: spawn the program (may raise), race
`communicate()` against the timeout (on timeout kill the process and await
it), then return `runResult`. -/
def runPhase (w : World) : Except PyExn ExecutionResult :=
  match w.runSpawn with
  | Except.error e => Except.error e
  | Except.ok _ => Except.ok (runResult w)

/-- `CodeExecutor._run_python` (lines 149-187). -/
def run_python (w : World) (stdin : String) (timeout : Nat) :
    Except PyExn ExecutionResult :=
  runPhase w

/-- The compile phase shared by `_run_java` and `_run_compiled`: spawn the
compiler (may raise), wait for it; on a non-zero compiler exit return a
`Compilation Error` result whose stderr is the compiler's stderr decoded
(note: not stripped) and whose exit code is the compiler's; otherwise
proceed to the run phase. -/
def compileThenRun (w : World) : Except PyExn ExecutionResult :=
  match w.compileSpawn with
  | Except.error e => Except.error e
  | Except.ok _ =>
    if w.compileComm.returncode ≠ 0 then
      Except.ok ⟨"", utf8DecodeIgnoreStr w.compileComm.stderr,
                 w.compileComm.returncode, w.elapsedMs, none,
                 "Compilation Error", false⟩
    else
      runPhase w

/-- `CodeExecutor._run_java` (lines 189-249). -/
def run_java (w : World) (stdin : String) (timeout : Nat) :
    Except PyExn ExecutionResult :=
  compileThenRun w

/-- `CodeExecutor._run_compiled` (lines 251-310); `config` supplies the
compile and run command lines, whose effect the `World` oracle abstracts. -/
def run_compiled (w : World) (stdin : String) (timeout : Nat)
    (config : LangConfig) : Except PyExn ExecutionResult :=
  compileThenRun w

/-- `CodeExecutor._run_javascript` (lines 312-350). -/
def run_javascript (w : World) (stdin : String) (timeout : Nat) :
    Except PyExn ExecutionResult :=
  runPhase w

/-- Per-language dispatch of `_execute_in_temp_dir` (lines 129-138):
the if/elif chain on `language`; `none` models reaching the final
`raise ValueError` of "Language ... not implemented". -/
inductive Branch where
  | py
  | java
  | compiled
  | js
deriving Repr, DecidableEq

/-- Which dispatch branch of `_execute_in_temp_dir` a language id selects. -/
def dispatchBranch (language : String) : Option Branch :=
  if language = "python" then some Branch.py
  else if language = "java" then some Branch.java
  else if language = "cpp" ∨ language = "c" then some Branch.compiled
  else if language = "javascript" then some Branch.js
  else none

/-- The `except Exception as e` handlers (lines 111-119 and 139-147): convert
any exception into an `ExecutionResult` with `status = "Runtime Error"`,
`stderr = str(e)`, `exit_code = 1` and the given elapsed-time value. -/
def convertExn (ems : Nat) (e : PyExn) : ExecutionResult :=
  ⟨"", pyStr e, 1, ems, none, "Runtime Error", false⟩

/-- A `try`/`except Exception` block returning `convertExn` on failure. -/
def tryConvert (ems : Nat) (body : Except PyExn ExecutionResult) :
    Except PyExn ExecutionResult :=
  match body with
  | Except.ok r => Except.ok r
  | Except.error e => Except.ok (convertExn ems e)

/-- `CodeExecutor._execute_in_temp_dir` (lines 121-147): write the source
file (outside the try — a write failure propagates to the caller), then
dispatch on the language inside a `try` whose handler converts any exception
into a `Runtime Error` result with the measured elapsed time. -/
def execute_in_temp_dir (w : World) (config : LangConfig)
    (source_code stdin : String) (timeout : Nat) (language : String) :
    Except PyExn ExecutionResult :=
  match w.writeSource with
  | Except.error e => Except.error e
  | Except.ok _ =>
    tryConvert w.elapsedMs
      (match dispatchBranch language with
       | some Branch.py => run_python w stdin timeout
       | some Branch.java => run_java w stdin timeout
       | some Branch.compiled => run_compiled w stdin timeout config
       | some Branch.js => run_javascript w stdin timeout
       | none =>
         Except.error (PyExn.valueError
           ("Language " ++ language ++ " not implemented")))

/-- `timeout = timeout if timeout is not None else config["default_timeout"]`
(line 102).  The registry entries store the default under the key
`"timeout"`, so the subscript raises `KeyError('default_timeout')`. -/
def resolveTimeout (timeout : Option Nat) (config : LangConfig) :
    Except PyExn Nat :=
  match timeout with
  | some t => Except.ok t
  | none =>
    match configGetNat config "default_timeout" with
    | some t => Except.ok t
    | none => Except.error (PyExn.keyError "default_timeout")

/-- `with tempfile.TemporaryDirectory() as temp_dir:` — if creation succeeds
the body runs and the directory is recursively deleted when the block exits,
on every exit path; if creation fails nothing is created and the exception
propagates. -/
def withTempDir (w : World) (body : Except PyExn ExecutionResult) :
    Except PyExn ExecutionResult × List WsEvent :=
  match w.tempdir with
  | Except.error e => (Except.error e, [])
  | Except.ok _ => (body, [WsEvent.created, WsEvent.destroyed])

/-- `CodeExecutor.execute_code` (lines 97-119): registry check (raises
`ValueError` for an unregistered id), timeout resolution (line 102, before
the workspace exists), then the scoped temporary directory around a `try`
whose handler converts any exception into a `Runtime Error` result with
`execution_time_ms = 0`.  Returns the call's outcome paired with the
workspace-event trace. -/
def execute_code (w : World) (language source_code stdin : String)
    (timeout : Option Nat) : Except PyExn ExecutionResult × List WsEvent :=
  match lookupLanguage language with
  | none =>
    (Except.error (PyExn.valueError ("Unsupported language: " ++ language)), [])
  | some config =>
    match resolveTimeout timeout config with
    | Except.error e => (Except.error e, [])
    | Except.ok t =>
      withTempDir w
        (match execute_in_temp_dir w config source_code stdin t language with
         | Except.ok r => Except.ok r
         | Except.error e => Except.ok (convertExn 0 e))

/-! ### Helper lemmas and concrete environments -/

/-- The registry check (line 98) passes exactly for the four registered ids. -/
theorem lookup_registered (language : String)
    (h : (lookupLanguage language).isSome = true) :
    language = "python" ∨ language = "java" ∨ language = "cpp" ∨
      language = "javascript" := by
  by_cases h1 : language = "python"
  · exact Or.inl h1
  by_cases h2 : language = "java"
  · exact Or.inr (Or.inl h2)
  by_cases h3 : language = "cpp"
  · exact Or.inr (Or.inr (Or.inl h3))
  by_cases h4 : language = "javascript"
  · exact Or.inr (Or.inr (Or.inr h4))
  unfold lookupLanguage at h
  simp [h1, h2, h3, h4] at h

/-- Reduction of `execute_code` once the registry check passed, the caller
supplied a timeout, and the temporary directory was created. -/
theorem execute_code_run (w : World) (config : LangConfig)
    (language source_code stdin : String) (t : Nat)
    (hlook : lookupLanguage language = some config)
    (htd : w.tempdir = Except.ok ()) :
    execute_code w language source_code stdin (some t) =
      (tryConvert 0 (execute_in_temp_dir w config source_code stdin t language),
       [WsEvent.created, WsEvent.destroyed]) := by
  unfold execute_code resolveTimeout withTempDir
  rw [hlook, htd]
  rfl

/-- With the source file written, a compile-phase language whose compiler
exits non-zero yields the `Compilation Error` result. -/
theorem compileThenRun_compile_error (w : World)
    (hcs : w.compileSpawn = Except.ok ())
    (hcc : w.compileComm.returncode ≠ 0) :
    compileThenRun w =
      Except.ok ⟨"", utf8DecodeIgnoreStr w.compileComm.stderr,
                 w.compileComm.returncode, w.elapsedMs, none,
                 "Compilation Error", false⟩ := by
  unfold compileThenRun
  rw [hcs]
  simp [hcc]

/-- With a zero compiler exit, a compile-phase language proceeds to the run
phase. -/
theorem compileThenRun_run (w : World)
    (hcs : w.compileSpawn = Except.ok ())
    (hcc : w.compileComm.returncode = 0) :
    compileThenRun w = runPhase w := by
  unfold compileThenRun
  rw [hcs]
  simp [hcc]

/-- One registered language, given its config and a live dispatch branch:
once the source file is written, the compile phase (if any) succeeds and the
run process spawns, `execute_code` returns exactly `runResult`. -/
theorem exec_run_case (w : World) (config : LangConfig)
    (language source_code stdin : String) (t : Nat)
    (hlook : lookupLanguage language = some config)
    (hdisp : dispatchBranch language ≠ none)
    (htd : w.tempdir = Except.ok ()) (hws : w.writeSource = Except.ok ())
    (hcs : w.compileSpawn = Except.ok ())
    (hcc : w.compileComm.returncode = 0)
    (hrs : w.runSpawn = Except.ok ()) :
    (execute_code w language source_code stdin (some t)).1 =
      Except.ok (runResult w) := by
  have hrp : runPhase w = Except.ok (runResult w) := by
    unfold runPhase
    rw [hrs]
  rw [execute_code_run w config language source_code stdin t hlook htd]
  show tryConvert 0 (execute_in_temp_dir w config source_code stdin t language) =
    Except.ok (runResult w)
  unfold execute_in_temp_dir
  rw [hws]
  cases hd : dispatchBranch language with
  | none => exact absurd hd hdisp
  | some b =>
    cases b with
    | py =>
      rw [show run_python w stdin t = runPhase w from rfl, hrp]
      rfl
    | java =>
      rw [show run_java w stdin t = compileThenRun w from rfl,
          compileThenRun_run w hcs hcc, hrp]
      rfl
    | compiled =>
      rw [show run_compiled w stdin t config = compileThenRun w from rfl,
          compileThenRun_run w hcs hcc, hrp]
      rfl
    | js =>
      rw [show run_javascript w stdin t = runPhase w from rfl, hrp]
      rfl

/-- For every registered language, once the workspace exists, the source file
was written, the compile phase (if any) succeeded and the run process
spawned, `execute_code` returns exactly `runResult`. -/
theorem registered_run_result (w : World)
    (language source_code stdin : String) (t : Nat)
    (hreg : (lookupLanguage language).isSome = true)
    (htd : w.tempdir = Except.ok ()) (hws : w.writeSource = Except.ok ())
    (hcs : w.compileSpawn = Except.ok ())
    (hcc : w.compileComm.returncode = 0)
    (hrs : w.runSpawn = Except.ok ()) :
    (execute_code w language source_code stdin (some t)).1 =
      Except.ok (runResult w) := by
  rcases lookup_registered language hreg with h | h | h | h
  · subst h
    exact exec_run_case w pythonConfig "python" source_code stdin t
      (by simp [lookupLanguage]) (by simp [dispatchBranch]) htd hws hcs hcc hrs
  · subst h
    exact exec_run_case w javaConfig "java" source_code stdin t
      (by simp [lookupLanguage]) (by simp [dispatchBranch]) htd hws hcs hcc hrs
  · subst h
    exact exec_run_case w cppConfig "cpp" source_code stdin t
      (by simp [lookupLanguage]) (by simp [dispatchBranch]) htd hws hcs hcc hrs
  · subst h
    exact exec_run_case w javascriptConfig "javascript" source_code stdin t
      (by simp [lookupLanguage]) (by simp [dispatchBranch]) htd hws hcs hcc hrs

/-- An environment in which every external step succeeds, the compiler and
the program both exit 0, and no output is produced. -/
def okWorld : World :=
  ⟨Except.ok (), Except.ok (), Except.ok (), ⟨[], [], 0⟩, Except.ok (),
   CommOutcome.finished ⟨[], [], 0⟩, 0⟩

/-- An environment in which the program emits byte streams containing the
invalid UTF-8 byte 0xFF. -/
def badBytesWorld : World :=
  ⟨Except.ok (), Except.ok (), Except.ok (), ⟨[], [], 0⟩, Except.ok (),
   CommOutcome.finished ⟨[0x61, 0xFF, 0x62], [0x63, 0xFF, 0x64], 0⟩, 0⟩

/-- An environment in which the compiler exits 2 with stderr `"err\n"`
(trailing newline), while a run phase would succeed with padded stdout. -/
def compileFailWorld : World :=
  ⟨Except.ok (), Except.ok (), Except.ok (), ⟨[], strBytes "err\n", 2⟩,
   Except.ok (), CommOutcome.finished ⟨strBytes " out \n", [], 0⟩, 7⟩

/-- An environment in which the run phase exceeds its timeout and the killed
process is reaped with return code -9. -/
def tleWorld : World :=
  ⟨Except.ok (), Except.ok (), Except.ok (), ⟨[], [], 0⟩, Except.ok (),
   CommOutcome.timedOut (-9), 7⟩

/-- An environment in which the program exits with the explicit status 3. -/
def exit3World : World :=
  ⟨Except.ok (), Except.ok (), Except.ok (), ⟨[], [], 0⟩, Except.ok (),
   CommOutcome.finished ⟨[], [], 3⟩, 5⟩

/-- Python-only reduction: no compile phase, so the compile-oracle fields are
irrelevant to the result. -/
theorem exec_run_python (w : World) (source_code stdin : String) (t : Nat)
    (htd : w.tempdir = Except.ok ()) (hws : w.writeSource = Except.ok ())
    (hrs : w.runSpawn = Except.ok ()) :
    (execute_code w "python" source_code stdin (some t)).1 =
      Except.ok (runResult w) := by
  rw [execute_code_run w pythonConfig "python" source_code stdin t
    (by simp [lookupLanguage]) htd]
  show tryConvert 0 (execute_in_temp_dir w pythonConfig source_code stdin t "python") = _
  unfold execute_in_temp_dir
  rw [hws]
  show tryConvert 0 (tryConvert w.elapsedMs (runPhase w)) = _
  unfold runPhase
  rw [hrs]
  rfl

/-- The `java` invocation with a failing compiler returns the
`Compilation Error` result. -/
theorem exec_java_compile_error (w : World) (source_code stdin : String)
    (t : Nat)
    (htd : w.tempdir = Except.ok ()) (hws : w.writeSource = Except.ok ())
    (hcs : w.compileSpawn = Except.ok ())
    (hcc : w.compileComm.returncode ≠ 0) :
    (execute_code w "java" source_code stdin (some t)).1 =
      Except.ok ⟨"", utf8DecodeIgnoreStr w.compileComm.stderr,
                 w.compileComm.returncode, w.elapsedMs, none,
                 "Compilation Error", false⟩ := by
  rw [execute_code_run w javaConfig "java" source_code stdin t
    (by simp [lookupLanguage]) htd]
  show tryConvert 0 (execute_in_temp_dir w javaConfig source_code stdin t "java") = _
  unfold execute_in_temp_dir
  rw [hws]
  show tryConvert 0 (tryConvert w.elapsedMs (compileThenRun w)) = _
  rw [compileThenRun_compile_error w hcs hcc]
  rfl

/-- The `cpp` invocation with a failing compiler returns the
`Compilation Error` result. -/
theorem exec_cpp_compile_error (w : World) (source_code stdin : String)
    (t : Nat)
    (htd : w.tempdir = Except.ok ()) (hws : w.writeSource = Except.ok ())
    (hcs : w.compileSpawn = Except.ok ())
    (hcc : w.compileComm.returncode ≠ 0) :
    (execute_code w "cpp" source_code stdin (some t)).1 =
      Except.ok ⟨"", utf8DecodeIgnoreStr w.compileComm.stderr,
                 w.compileComm.returncode, w.elapsedMs, none,
                 "Compilation Error", false⟩ := by
  rw [execute_code_run w cppConfig "cpp" source_code stdin t
    (by simp [lookupLanguage]) htd]
  show tryConvert 0 (execute_in_temp_dir w cppConfig source_code stdin t "cpp") = _
  unfold execute_in_temp_dir
  rw [hws]
  show tryConvert 0 (tryConvert w.elapsedMs (compileThenRun w)) = _
  rw [compileThenRun_compile_error w hcs hcc]
  rfl

/-! ### Claims -/

/-- C2: the claim says an omitted timeout falls back to the language's
30-second default.  The code is wrong: line 102 reads
`config["default_timeout"]`, but every registry entry stores the default
under the key `"timeout"`, so for every registered language an omitted
timeout raises `KeyError('default_timeout')` instead of running at all. -/
theorem c2_missing_default_timeout (w : World)
    (language source_code stdin : String)
    (hreg : (lookupLanguage language).isSome = true) :
    (execute_code w language source_code stdin none).1 =
      Except.error (PyExn.keyError "default_timeout") := by
  rcases lookup_registered language hreg with h | h | h | h <;> subst h <;> rfl

/-- C2 witness. -/
theorem c2_missing_default_timeout_witness :
    (execute_code okWorld "python" "print(1)" "" none).1 =
      Except.error (PyExn.keyError "default_timeout") :=
  c2_missing_default_timeout okWorld "python" "print(1)" "" rfl

/-- C3: an unregistered language id fails the call with the
"Unsupported language" `ValueError` (not an `ExecutionResult`) and the
workspace-event trace is empty — the rejection happens before any
filesystem side effect. -/
theorem c3_unsupported_language (w : World)
    (language source_code stdin : String) (timeout : Option Nat)
    (h : lookupLanguage language = none) :
    execute_code w language source_code stdin timeout =
      (Except.error (PyExn.valueError ("Unsupported language: " ++ language)),
       []) := by
  unfold execute_code
  rw [h]

/-- C3 witness (the id "c" has no registry entry). -/
theorem c3_unsupported_language_witness :
    execute_code okWorld "c" "x" "" (some 5) =
      (Except.error (PyExn.valueError ("Unsupported language: " ++ "c")),
       []) :=
  c3_unsupported_language okWorld "c" "x" "" (some 5) rfl

/-- C4: for `java` and `cpp`, a compiler that exits non-zero yields
`status = "Compilation Error"`, `stderr` the compiler's stderr (decoded),
`exitCode` the compiler's exit code, and `stdout = ""`; the result does not
depend on the run-phase oracle fields, i.e. the run phase never starts. -/
theorem c4_compilation_error (w : World)
    (language source_code stdin : String) (t : Nat)
    (hlang : language = "java" ∨ language = "cpp")
    (htd : w.tempdir = Except.ok ()) (hws : w.writeSource = Except.ok ())
    (hcs : w.compileSpawn = Except.ok ())
    (hcc : w.compileComm.returncode ≠ 0) :
    (execute_code w language source_code stdin (some t)).1 =
      Except.ok ⟨"", utf8DecodeIgnoreStr w.compileComm.stderr,
                 w.compileComm.returncode, w.elapsedMs, none,
                 "Compilation Error", false⟩ := by
  rcases hlang with h | h
  · subst h
    exact exec_java_compile_error w source_code stdin t htd hws hcs hcc
  · subst h
    exact exec_cpp_compile_error w source_code stdin t htd hws hcs hcc

/-- C4 witness. -/
theorem c4_compilation_error_witness :
    (execute_code compileFailWorld "java" "x" "" (some 5)).1 =
      Except.ok ⟨"", utf8DecodeIgnoreStr compileFailWorld.compileComm.stderr,
                 compileFailWorld.compileComm.returncode,
                 compileFailWorld.elapsedMs, none,
                 "Compilation Error", false⟩ :=
  c4_compilation_error compileFailWorld "java" "x" "" 5 (Or.inl rfl)
    rfl rfl rfl (by decide)

/-- C5: for every invocation that reaches the run phase, the status is
derived exactly as: timed out → "Time Limit Exceeded", else non-zero exit
code → "Runtime Error", else "Accepted"; and on completion the result's
exit code is the process's return code (`or 0`). -/
theorem c5_status_derivation (w : World)
    (language source_code stdin : String) (t : Nat)
    (hreg : (lookupLanguage language).isSome = true)
    (htd : w.tempdir = Except.ok ()) (hws : w.writeSource = Except.ok ())
    (hcs : w.compileSpawn = Except.ok ())
    (hcc : w.compileComm.returncode = 0)
    (hrs : w.runSpawn = Except.ok ()) :
    ∃ r, (execute_code w language source_code stdin (some t)).1 =
        Except.ok r ∧
      r.timeout = (match w.runComm with
        | CommOutcome.finished _ => false
        | CommOutcome.timedOut _ => true) ∧
      r.status = (if r.timeout then "Time Limit Exceeded"
        else if r.exit_code ≠ 0 then "Runtime Error" else "Accepted") ∧
      ∀ pr, w.runComm = CommOutcome.finished pr →
        r.exit_code = pyOrZero pr.returncode := by
  refine ⟨runResult w,
    registered_run_result w language source_code stdin t hreg htd hws hcs hcc hrs,
    ?_, ?_, ?_⟩
  · unfold runResult
    cases w.runComm <;> rfl
  · unfold runResult
    cases hc : w.runComm with
    | finished pr =>
      by_cases h0 : pr.returncode = 0
      · simp [h0, pyOrZero, deriveStatus]
      · simp [h0, pyOrZero, deriveStatus]
    | timedOut krc => simp [deriveStatus]
  · intro pr hpr
    unfold runResult
    rw [hpr]

/-- C5 witness (program exits with explicit status 3). -/
theorem c5_status_derivation_witness :
    ∃ r, (execute_code exit3World "python" "x" "" (some 5)).1 =
        Except.ok r ∧
      r.timeout = (match exit3World.runComm with
        | CommOutcome.finished _ => false
        | CommOutcome.timedOut _ => true) ∧
      r.status = (if r.timeout then "Time Limit Exceeded"
        else if r.exit_code ≠ 0 then "Runtime Error" else "Accepted") ∧
      ∀ pr, exit3World.runComm = CommOutcome.finished pr →
        r.exit_code = pyOrZero pr.returncode :=
  c5_status_derivation exit3World "python" "x" "" 5 rfl rfl rfl rfl rfl rfl

/-- C6: a run phase that exceeds the timeout yields a result with
`stdout = ""`, `stderr = "Time Limit Exceeded"`, `timedOut = true` and
`status = "Time Limit Exceeded"` — the partial output was discarded. -/
theorem c6_time_limit (w : World)
    (language source_code stdin : String) (t : Nat) (krc : Int)
    (hreg : (lookupLanguage language).isSome = true)
    (htd : w.tempdir = Except.ok ()) (hws : w.writeSource = Except.ok ())
    (hcs : w.compileSpawn = Except.ok ())
    (hcc : w.compileComm.returncode = 0)
    (hrs : w.runSpawn = Except.ok ())
    (hrc : w.runComm = CommOutcome.timedOut krc) :
    (execute_code w language source_code stdin (some t)).1 =
      Except.ok ⟨"", "Time Limit Exceeded", pyOrZero krc, w.elapsedMs, none,
                 "Time Limit Exceeded", true⟩ := by
  rw [registered_run_result w language source_code stdin t hreg htd hws hcs
    hcc hrs]
  unfold runResult
  rw [hrc]
  show Except.ok (⟨pyStrip (utf8DecodeIgnoreStr (strBytes "")),
      pyStrip (utf8DecodeIgnoreStr (strBytes "Time Limit Exceeded")),
      pyOrZero krc, w.elapsedMs, none, deriveStatus true krc, true⟩ :
        ExecutionResult) =
    Except.ok ⟨"", "Time Limit Exceeded", pyOrZero krc, w.elapsedMs, none,
               "Time Limit Exceeded", true⟩
  have h1 : pyStrip (utf8DecodeIgnoreStr (strBytes "")) = "" := by decide
  have h2 : pyStrip (utf8DecodeIgnoreStr (strBytes "Time Limit Exceeded")) =
      "Time Limit Exceeded" := by decide
  have h3 : deriveStatus true krc = "Time Limit Exceeded" := rfl
  rw [h1, h2, h3]

/-- C6 witness. -/
theorem c6_time_limit_witness :
    (execute_code tleWorld "cpp" "x" "" (some 2)).1 =
      Except.ok ⟨"", "Time Limit Exceeded", pyOrZero (-9),
                 tleWorld.elapsedMs, none, "Time Limit Exceeded", true⟩ :=
  c6_time_limit tleWorld "cpp" "x" "" 2 (-9) rfl rfl rfl rfl rfl rfl rfl

/-- C7 (counterexample): the claim says invalid byte sequences in the
captured streams are replaced by a replacement character.  The code decodes
with `errors='ignore'`, which drops them instead: for stdout bytes
`[0x61, 0xFF, 0x62]` the result carries `"ab"`, not the `"a� b"` that
replacement semantics (as the spec words them) would produce. -/
theorem c7_counterexample :
    (execute_code badBytesWorld "python" "x" "" (some 5)).1 =
      Except.ok ⟨"ab", "cd", 0, 0, none, "Accepted", false⟩ ∧
    utf8DecodeReplaceStr [0x61, 0xFF, 0x62] =
      String.mk [Char.ofNat 0x61, Char.ofNat 0xFFFD, Char.ofNat 0x62] ∧
    ("ab" : String) ≠
      String.mk [Char.ofNat 0x61, Char.ofNat 0xFFFD, Char.ofNat 0x62] :=
  ⟨by decide, by decide, by decide⟩

/-- C7 (amended): decoding never fails — for every byte sequences the child
produces, the returned stdout and stderr are the total `errors='ignore'`
UTF-8 decoding (invalid byte sequences dropped) of the captured bytes,
stripped. -/
theorem c7_ignore_decoding (w : World)
    (language source_code stdin : String) (t : Nat) (pr : ProcResult)
    (hreg : (lookupLanguage language).isSome = true)
    (htd : w.tempdir = Except.ok ()) (hws : w.writeSource = Except.ok ())
    (hcs : w.compileSpawn = Except.ok ())
    (hcc : w.compileComm.returncode = 0)
    (hrs : w.runSpawn = Except.ok ())
    (hrc : w.runComm = CommOutcome.finished pr) :
    (execute_code w language source_code stdin (some t)).1 =
      Except.ok ⟨pyStrip (utf8DecodeIgnoreStr pr.stdout),
                 pyStrip (utf8DecodeIgnoreStr pr.stderr),
                 pyOrZero pr.returncode, w.elapsedMs, none,
                 deriveStatus false pr.returncode, false⟩ := by
  rw [registered_run_result w language source_code stdin t hreg htd hws hcs
    hcc hrs]
  unfold runResult
  rw [hrc]

/-- C7 witness. -/
theorem c7_ignore_decoding_witness :
    (execute_code badBytesWorld "python" "x" "" (some 5)).1 =
      Except.ok ⟨pyStrip (utf8DecodeIgnoreStr [0x61, 0xFF, 0x62]),
                 pyStrip (utf8DecodeIgnoreStr [0x63, 0xFF, 0x64]),
                 pyOrZero 0, badBytesWorld.elapsedMs, none,
                 deriveStatus false 0, false⟩ :=
  c7_ignore_decoding badBytesWorld "python" "x" "" 5
    ⟨[0x61, 0xFF, 0x62], [0x63, 0xFF, 0x64], 0⟩ rfl rfl rfl rfl rfl rfl rfl

/-- C8 (counterexample): the claim says every returned result, including
compilation-error results, has stdout and stderr trimmed.  The
compilation-error path decodes the compiler's stderr without `strip()`:
a compiler stderr of `"err\n"` is returned with its trailing newline. -/
theorem c8_counterexample :
    (execute_code compileFailWorld "java" "x" "" (some 5)).1 =
      Except.ok ⟨"", "err\n", 2, 7, none, "Compilation Error", false⟩ ∧
    pyStrip "err\n" = "err" ∧ ("err\n" : String) ≠ "err" :=
  ⟨by decide, by decide, by decide⟩

/-- C8 (amended): results produced by the run phase have stdout and stderr
trimmed, but compilation-error results return the compiler's stderr
untrimmed (their stdout is the empty string). -/
theorem c8_trim (w : World) (source_code stdin : String) (t : Nat)
    (pr : ProcResult)
    (htd : w.tempdir = Except.ok ()) (hws : w.writeSource = Except.ok ())
    (hcs : w.compileSpawn = Except.ok ())
    (hcf : w.compileComm.returncode ≠ 0)
    (hrs : w.runSpawn = Except.ok ())
    (hrc : w.runComm = CommOutcome.finished pr) :
    (execute_code w "java" source_code stdin (some t)).1 =
      Except.ok ⟨"", utf8DecodeIgnoreStr w.compileComm.stderr,
                 w.compileComm.returncode, w.elapsedMs, none,
                 "Compilation Error", false⟩ ∧
    (execute_code w "python" source_code stdin (some t)).1 =
      Except.ok ⟨pyStrip (utf8DecodeIgnoreStr pr.stdout),
                 pyStrip (utf8DecodeIgnoreStr pr.stderr),
                 pyOrZero pr.returncode, w.elapsedMs, none,
                 deriveStatus false pr.returncode, false⟩ := by
  constructor
  · exact exec_java_compile_error w source_code stdin t htd hws hcs hcf
  · rw [exec_run_python w source_code stdin t htd hws hrs]
    unfold runResult
    rw [hrc]

/-- C8 witness. -/
theorem c8_trim_witness :
    (execute_code compileFailWorld "java" "x" "" (some 5)).1 =
      Except.ok ⟨"", utf8DecodeIgnoreStr compileFailWorld.compileComm.stderr,
                 compileFailWorld.compileComm.returncode,
                 compileFailWorld.elapsedMs, none,
                 "Compilation Error", false⟩ ∧
    (execute_code compileFailWorld "python" "x" "" (some 5)).1 =
      Except.ok ⟨pyStrip (utf8DecodeIgnoreStr (strBytes " out \n")),
                 pyStrip (utf8DecodeIgnoreStr []),
                 pyOrZero 0, compileFailWorld.elapsedMs, none,
                 deriveStatus false 0, false⟩ :=
  c8_trim compileFailWorld "x" "" 5 ⟨strBytes " out \n", [], 0⟩
    rfl rfl rfl (by decide) rfl rfl

/-- C9: the workspace-event trace of every invocation is either empty (the
call was rejected or the workspace could not be created) or exactly
creation followed by recursive destruction — no workspace outlives its
invocation on any exit path. -/
theorem c9_workspace_cleanup (w : World)
    (language source_code stdin : String) (timeout : Option Nat) :
    (execute_code w language source_code stdin timeout).2 = [] ∨
    (execute_code w language source_code stdin timeout).2 =
      [WsEvent.created, WsEvent.destroyed] := by
  unfold execute_code
  split
  · exact Or.inl rfl
  · split
    · exact Or.inl rfl
    · unfold withTempDir
      split
      · exact Or.inl rfl
      · exact Or.inr rfl

/-- C10: every language id accepted by the registry check selects a live
branch of the per-language dispatch, so the final "not implemented" branch
is unreachable; moreover the only registered language reaching the
compiled-dispatch branch is "cpp" — the "c" alternative of that branch is
dead code because "c" has no registry entry. -/
theorem c10_dispatch_total (language : String)
    (hreg : (lookupLanguage language).isSome = true) :
    (dispatchBranch language).isSome = true ∧
    (dispatchBranch language = some Branch.compiled → language = "cpp") ∧
    lookupLanguage "c" = none := by
  rcases lookup_registered language hreg with h | h | h | h <;> subst h
  · exact ⟨rfl, fun hd => absurd hd (by decide), rfl⟩
  · exact ⟨rfl, fun hd => absurd hd (by decide), rfl⟩
  · exact ⟨rfl, fun _ => rfl, rfl⟩
  · exact ⟨rfl, fun hd => absurd hd (by decide), rfl⟩

/-- C10 witness. -/
theorem c10_dispatch_total_witness :
    (dispatchBranch "cpp").isSome = true ∧
    (dispatchBranch "cpp" = some Branch.compiled → ("cpp" : String) = "cpp") ∧
    lookupLanguage "c" = none :=
  c10_dispatch_total "cpp" rfl
